import Mathlib

/-!
Verification of the asynchronous two-stage video-generation pipeline in
`src/services/geminiService.ts`.

The remote service, the credential store and the browser transport are
modelled as an oracle (`Env`).  The pipeline itself
(`generateVideoFromImage`) is translated statement by statement from the
source; every externally visible action (progress callback, job
submission, poll call, timed wait, artifact download) is recorded in an
event trace so that ordering and counting properties can be stated.

The unbounded `while (!op.done)` polling loops of the source are embedded
with an explicit fuel parameter (`pollUntilDone`); running out of fuel is
reported as a distinguished outcome (`fuelOut`), never as a result the
source could produce.

One point of JavaScript semantics matters and is modelled faithfully: in
an `async` function, `return fetchAndCreateUrl(...)` inside a `try` block
(without `await`) leaves the `try` block before the returned promise
settles, so a rejection of that promise is NOT intercepted by the
surrounding `catch`.  Both success paths of the source return the download
promise this way, hence download failures reach the caller without passing
through the `catch` block's error classification.  `TryResult` separates
the two channels: `thrown` for errors raised inside the `try` block (these
are classified), `returnedDownload` for the result of the returned
download promise (whose error, if any, bypasses the `catch`).
-/

namespace VideoCreator

/-- A generated video object (the `video` field of an operation response);
`uri` is the optional download link. -/
structure Video where
  uri : Option String
deriving DecidableEq, Repr

/-- One entry of `response.generatedVideos`. -/
structure GeneratedVideo where
  video : Option Video
deriving DecidableEq, Repr

/-- The `response` field of a remote operation. -/
structure OperationResponse where
  generatedVideos : Option (List GeneratedVideo)
deriving DecidableEq, Repr

/-- A remote operation snapshot: `done` plus the optional response.  Only
the fields the pipeline reads are modelled. -/
structure Operation where
  done : Bool
  response : Option OperationResponse
deriving DecidableEq, Repr

/-- The optional-chaining access `op.response?.generatedVideos?.[0]?.video`. -/
def opVideo (op : Operation) : Option Video :=
  ((op.response.bind fun r => r.generatedVideos).bind fun l => l.head?).bind
    fun g => g.video

/-- The optional-chaining access `op.response?.generatedVideos?.[0]?.video?.uri`. -/
def videoUri (op : Operation) : Option String :=
  (opVideo op).bind fun v => v.uri

/-- The `config` object passed to `generateVideos`; `aspect` embeds the
source's aspect-ratio field. -/
structure VideoConfig where
  numberOfVideos : Nat
  resolution : String
  aspect : String
deriving DecidableEq, Repr

/-- The payload a `generateVideos` submission carries besides prompt and
config: either a still image (initial stage) or a previous video
(extension stage). -/
inductive SubmitInput where
  | image (imageBytes : String) (mimeType : String)
  | video (v : Video)
deriving DecidableEq, Repr

/-- One `ai.models.generateVideos` request. -/
structure SubmitRequest where
  model : String
  prompt : String
  input : SubmitInput
  config : VideoConfig
deriving DecidableEq, Repr

/-- The source's `duration: 'short' | 'long'`. -/
inductive Duration where
  | short
  | long
deriving DecidableEq, Repr

/-- The caller-supplied parameters of `generateVideoFromImage`; `aspect`
embeds the source's aspect-ratio field.  The progress callback is
modelled by the event trace instead of a function argument. -/
structure GenerateParams where
  prompt : String
  imageBase64 : String
  imageMimeType : String
  aspect : String
  duration : Duration
deriving DecidableEq, Repr

/-- Externally visible actions of one pipeline run, in program order. -/
inductive Event where
  | progress (msg : String)
  | submit (req : SubmitRequest)
  | wait (ms : Nat)
  | pollCall
  | fetchCall (url : String)
deriving DecidableEq, Repr

/-- The transport's view of one `fetch` response: HTTP success flag,
status text, and the object URL the blob would be wrapped in. -/
structure FetchResponse where
  ok : Bool
  statusText : String
  blobUrl : String
deriving DecidableEq, Repr

/-- The oracle for everything outside the pipeline: the credential store
(`process.env.API_KEY`), job submission, operation polling, and the
download transport.  Remote calls may fail with a raw error message. -/
structure Env where
  apiKey : Option String
  submit : SubmitRequest → Except String Operation
  poll : Operation → Except String Operation
  download : String → Except String FetchResponse

/-- `!apiKey` of the source: in JavaScript both `undefined` and the empty
string are falsy. -/
def keyMissing : Option String → Bool
  | none => true
  | some s => s == ""

/-- Result of the fueled polling loop. -/
inductive PollResult where
  | ok (op : Operation)
  | err (msg : String)
  | fuelOut
deriving DecidableEq, Repr

/-- The polling loop shared by both stages:
`while (!op.done) { await sleep(20000); op = await poll(op) }`.
Each iteration waits a fixed 20000 ms and then issues exactly one poll
call against the current snapshot; the loop exits only when a snapshot
reports done or a poll call fails.  `fuel` bounds the number of
iterations the embedding can unfold. -/
def pollUntilDone (poll : Operation → Except String Operation) :
    Nat → Operation → List Event × PollResult
  | 0, op => if op.done then ([], .ok op) else ([], .fuelOut)
  | fuel + 1, op =>
    if op.done then ([], .ok op)
    else
      match poll op with
      | .error e => ([Event.wait 20000, Event.pollCall], .err e)
      | .ok op' =>
        ((Event.wait 20000) :: Event.pollCall :: (pollUntilDone poll fuel op').1,
          (pollUntilDone poll fuel op').2)

/-- `fetchAndCreateUrl`: one GET of `downloadLink + "&key=" + apiKey`; a
non-ok response raises `Failed to download video: <statusText>`, a
successful one yields the blob's object URL. -/
def fetchAndCreateUrl (env : Env) (downloadLink apiKey : String) :
    List Event × Except String String :=
  ([Event.fetchCall (downloadLink ++ "&key=" ++ apiKey)],
    match env.download (downloadLink ++ "&key=" ++ apiKey) with
    | .error e => .error e
    | .ok resp =>
      if resp.ok then .ok resp.blobUrl
      else .error ("Failed to download video: " ++ resp.statusText))

/-- `pat` is a leading segment of `text` (character lists). -/
def hasLead : List Char → List Char → Bool
  | [], _ => true
  | _ :: _, [] => false
  | c :: cs, d :: ds => c == d && hasLead cs ds

/-- `pat` occurs contiguously somewhere in `text` (character lists). -/
def hasInfix (pat : List Char) : List Char → Bool
  | [] => pat.isEmpty
  | d :: ds => hasLead pat (d :: ds) || hasInfix pat ds

/-- Case-sensitive substring test, the embedding of
`msg.includes(pat)` of the source. -/
def strContains (msg pat : String) : Bool :=
  hasInfix pat.data msg.data

/-- The classification taxonomy of the catch block: each branch of the
source's `catch` is labelled with the spec's corresponding kind. -/
inductive ErrorKind where
  | RateLimited
  | InvalidCredential
  | Unknown
deriving DecidableEq, Repr

/-- A classified error: the kind names the catch-block branch taken, the
message is the text the branch rethrows. -/
structure ClassifiedError where
  kind : ErrorKind
  message : String
deriving DecidableEq, Repr

/-- The canned rate-limit message of the catch block. -/
def rateLimitMessage : String :=
  "Rate limit exceeded. You've made too many requests in a short period. Please wait a moment and try again."

/-- The canned invalid-credential message of the catch block. -/
def invalidKeyMessage : String :=
  "API key is invalid or not found. Please re-select your API key."

/-- The generic fallback used when the raw message is empty. -/
def unknownErrorMessage : String :=
  "An unknown error occurred while communicating with the API."

/-- The `catch` block of `generateVideoFromImage`: case-sensitive
substring rules applied in priority order to the raw message.  The
`msg ≠ ""` guards embed the JavaScript truthiness test
`error.message && ...`; the final branch embeds
`error.message || "An unknown error occurred..."`. -/
def classifyError (msg : String) : ClassifiedError :=
  if msg ≠ "" ∧ (strContains msg "RESOURCE_EXHAUSTED" = true ∨ strContains msg "429" = true) then
    ⟨ErrorKind.RateLimited, rateLimitMessage⟩
  else if msg ≠ "" ∧ strContains msg "Requested entity was not found" = true then
    ⟨ErrorKind.InvalidCredential, invalidKeyMessage⟩
  else if msg = "" then
    ⟨ErrorKind.Unknown, unknownErrorMessage⟩
  else
    ⟨ErrorKind.Unknown, msg⟩

/-- The INITIAL-stage submission: model `veo-3.1-fast-generate-preview`,
the caller's prompt, the caller's still image, and the fixed config
(one video, 720p, the caller's aspect ratio). -/
def initialReq (p : GenerateParams) : SubmitRequest :=
  ⟨"veo-3.1-fast-generate-preview", p.prompt,
    SubmitInput.image p.imageBase64 p.imageMimeType,
    ⟨1, "720p", p.aspect⟩⟩

/-- The EXTENSION-stage submission: model `veo-3.1-generate-preview`, the
same prompt, the previous stage's video as continuation input, and the
same config shape. -/
def extensionReq (p : GenerateParams) (v : Video) : SubmitRequest :=
  ⟨"veo-3.1-generate-preview", p.prompt, SubmitInput.video v,
    ⟨1, "720p", p.aspect⟩⟩

/-- How the `try` block of the source ends.  `thrown` is an error raised
inside the `try` block (it will be classified by the `catch`);
`returnedDownload` is the settled value of the download promise that
both success paths return WITHOUT awaiting, so its error bypasses the
`catch`; `fuelOut` is the embedding's marker for exhausted polling
fuel. -/
inductive TryResult where
  | returnedDownload (r : Except String String)
  | thrown (msg : String)
  | fuelOut
deriving Repr

/-- The progress messages of the source, in program order. -/
def warmingMsg : String := "Warming up the creativity engine..."

def generatingMsg : String := "Generating initial scene... this can take a few minutes."

def finalizingMsg : String := "Finalizing initial scene..."

def extendingMsg : String := "Extending video... this will take a few more minutes."

def downloadingMsg : String := "Downloading your video..."

def downloadingExtMsg : String := "Downloading your extended video..."

/-- The body of the `try` block of `generateVideoFromImage`, translated
statement by statement.  The `if link = ""` tests embed the JavaScript
truthiness checks `if (!downloadLink)` (the empty string is falsy);
`previousVideo` is an object, so its check is only against
undefined. -/
def tryBody (env : Env) (fuel : Nat) (p : GenerateParams) (apiKey : String) :
    List Event × TryResult :=
  match env.submit (initialReq p) with
  | .error e =>
    ([Event.progress warmingMsg, Event.submit (initialReq p)], .thrown e)
  | .ok op0 =>
    match pollUntilDone env.poll fuel op0 with
    | (ptr, PollResult.err e) =>
      ([Event.progress warmingMsg, Event.submit (initialReq p),
        Event.progress generatingMsg] ++ ptr, .thrown e)
    | (ptr, PollResult.fuelOut) =>
      ([Event.progress warmingMsg, Event.submit (initialReq p),
        Event.progress generatingMsg] ++ ptr, .fuelOut)
    | (ptr, PollResult.ok op1) =>
      match p.duration with
      | Duration.short =>
        match videoUri op1 with
        | none =>
          ([Event.progress warmingMsg, Event.submit (initialReq p),
            Event.progress generatingMsg] ++ ptr,
            .thrown "Video generation failed: No download link was returned.")
        | some link =>
          if link = "" then
            ([Event.progress warmingMsg, Event.submit (initialReq p),
              Event.progress generatingMsg] ++ ptr,
              .thrown "Video generation failed: No download link was returned.")
          else
            ([Event.progress warmingMsg, Event.submit (initialReq p),
              Event.progress generatingMsg] ++ ptr ++
              [Event.progress downloadingMsg] ++ (fetchAndCreateUrl env link apiKey).1,
              .returnedDownload (fetchAndCreateUrl env link apiKey).2)
      | Duration.long =>
        match opVideo op1 with
        | none =>
          ([Event.progress warmingMsg, Event.submit (initialReq p),
            Event.progress generatingMsg] ++ ptr ++
            [Event.progress finalizingMsg, Event.wait 3000,
              Event.progress extendingMsg],
            .thrown "Failed to get initial video for extension.")
        | some v =>
          match env.submit (extensionReq p v) with
          | .error e =>
            ([Event.progress warmingMsg, Event.submit (initialReq p),
              Event.progress generatingMsg] ++ ptr ++
              [Event.progress finalizingMsg, Event.wait 3000,
                Event.progress extendingMsg, Event.submit (extensionReq p v)],
              .thrown e)
          | .ok xop0 =>
            match pollUntilDone env.poll fuel xop0 with
            | (ptr2, PollResult.err e) =>
              ([Event.progress warmingMsg, Event.submit (initialReq p),
                Event.progress generatingMsg] ++ ptr ++
                [Event.progress finalizingMsg, Event.wait 3000,
                  Event.progress extendingMsg, Event.submit (extensionReq p v)] ++ ptr2,
                .thrown e)
            | (ptr2, PollResult.fuelOut) =>
              ([Event.progress warmingMsg, Event.submit (initialReq p),
                Event.progress generatingMsg] ++ ptr ++
                [Event.progress finalizingMsg, Event.wait 3000,
                  Event.progress extendingMsg, Event.submit (extensionReq p v)] ++ ptr2,
                .fuelOut)
            | (ptr2, PollResult.ok xop1) =>
              match videoUri xop1 with
              | none =>
                ([Event.progress warmingMsg, Event.submit (initialReq p),
                  Event.progress generatingMsg] ++ ptr ++
                  [Event.progress finalizingMsg, Event.wait 3000,
                    Event.progress extendingMsg, Event.submit (extensionReq p v)] ++ ptr2,
                  .thrown "Video extension failed: No download link was returned.")
              | some link =>
                if link = "" then
                  ([Event.progress warmingMsg, Event.submit (initialReq p),
                    Event.progress generatingMsg] ++ ptr ++
                    [Event.progress finalizingMsg, Event.wait 3000,
                      Event.progress extendingMsg, Event.submit (extensionReq p v)] ++ ptr2,
                    .thrown "Video extension failed: No download link was returned.")
                else
                  ([Event.progress warmingMsg, Event.submit (initialReq p),
                    Event.progress generatingMsg] ++ ptr ++
                    [Event.progress finalizingMsg, Event.wait 3000,
                      Event.progress extendingMsg, Event.submit (extensionReq p v)] ++ ptr2 ++
                    [Event.progress downloadingExtMsg] ++ (fetchAndCreateUrl env link apiKey).1,
                    .returnedDownload (fetchAndCreateUrl env link apiKey).2)

/-- The message thrown before the `try` block when the credential is
absent. -/
def apiKeyMissingMessage : String :=
  "API Key not found. Please select an API key."

/-- The caller-visible outcome of one `generateVideoFromImage` call. -/
inductive GenOutcome where
  | ok (url : String)
  | error (msg : String)
  | fuelOut
deriving DecidableEq, Repr

/-- `generateVideoFromImage`: the credential check (before the `try`, so
its error is NOT classified), then the `try` body, then the `catch`
boundary.  Errors `thrown` inside the `try` pass through
`classifyError` exactly once; an error of the returned download promise
bypasses the `catch` and reaches the caller verbatim. -/
def generateVideoFromImage (env : Env) (fuel : Nat) (p : GenerateParams) :
    List Event × GenOutcome :=
  match env.apiKey with
  | none => ([], .error apiKeyMissingMessage)
  | some k =>
    if k = "" then ([], .error apiKeyMissingMessage)
    else
      match tryBody env fuel p k with
      | (tr, .returnedDownload (.ok url)) => (tr, .ok url)
      | (tr, .returnedDownload (.error e)) => (tr, .error e)
      | (tr, .thrown e) => (tr, .error (classifyError e).message)
      | (tr, .fuelOut) => (tr, .fuelOut)

/-- The progress messages of a trace, in order. -/
def progressOf (tr : List Event) : List String :=
  tr.filterMap fun e => match e with | Event.progress m => some m | _ => none

/-- The submissions of a trace, in order. -/
def submitsOf (tr : List Event) : List SubmitRequest :=
  tr.filterMap fun e => match e with | Event.submit r => some r | _ => none

/-- The download calls of a trace, in order. -/
def fetchesOf (tr : List Event) : List String :=
  tr.filterMap fun e => match e with | Event.fetchCall u => some u | _ => none

/-- Concrete request parameters used for evaluating the theorems. -/
def pShortW : GenerateParams :=
  ⟨"a prompt", "imgdata", "image/png", "16:9", Duration.short⟩

/-- Concrete long-duration request parameters used for evaluating the
theorems. -/
def pLongW : GenerateParams :=
  ⟨"a prompt", "imgdata", "image/png", "16:9", Duration.long⟩

/-- A completed operation carrying a download link, used for evaluating
the theorems. -/
def doneOpW : Operation := ⟨true, some ⟨some [⟨some ⟨some "http://v"⟩⟩]⟩⟩

/-- An environment in which every remote call succeeds at once. -/
def envHappy : Env :=
  ⟨some "key1", fun _ => Except.ok doneOpW, fun op => Except.ok op,
    fun _ => Except.ok ⟨true, "OK", "blob:1"⟩⟩

/-- An environment with no credential configured. -/
def envNoKey : Env :=
  ⟨none, fun _ => Except.error "unused", fun _ => Except.error "unused",
    fun _ => Except.error "unused"⟩

/-- A never-done operation, used for evaluating the polling theorems. -/
def notDoneOpW : Operation := ⟨false, none⟩

/-- A polling oracle that completes on the first poll call. -/
def pollW : Operation → Except String Operation := fun _ => Except.ok doneOpW

/-- A completed operation with no response at all (no result reference). -/
def opNoResW : Operation := ⟨true, none⟩

/-- A completed operation whose video object exists but has no uri. -/
def opNoUriW : Operation := ⟨true, some ⟨some [⟨some ⟨none⟩⟩]⟩⟩

/-- An environment whose operations complete at once but produce no
result reference. -/
def envNoResult : Env :=
  ⟨some "key1", fun _ => Except.ok opNoResW, fun op => Except.ok op,
    fun _ => Except.ok ⟨true, "OK", "blob:1"⟩⟩

/-- An environment where the INITIAL stage yields a video but the
EXTENSION stage's result carries no download link. -/
def envExtNoUri : Env :=
  ⟨some "key1",
    fun req =>
      if req.model = "veo-3.1-generate-preview" then Except.ok opNoUriW
      else Except.ok doneOpW,
    fun op => Except.ok op,
    fun _ => Except.ok ⟨true, "OK", "blob:1"⟩⟩

/-- An environment whose submission calls fail with a rate-limit error. -/
def envSubmitFail : Env :=
  ⟨some "key1", fun _ => Except.error "RESOURCE_EXHAUSTED",
    fun op => Except.ok op, fun _ => Except.ok ⟨true, "OK", "blob:1"⟩⟩

/-- An environment whose download transport rejects. -/
def envDlReject : Env :=
  ⟨some "key1", fun _ => Except.ok doneOpW, fun op => Except.ok op,
    fun _ => Except.error "network down"⟩

/-- An environment whose download responds unsuccessfully with status
text containing the numeric rate-limit code. -/
def envDl429 : Env :=
  ⟨some "key1", fun _ => Except.ok doneOpW, fun op => Except.ok op,
    fun _ => Except.ok ⟨false, "429", ""⟩⟩

/-! ### Facts about the polling loop's trace -/

theorem pollUntilDone_of_done (poll : Operation → Except String Operation)
    (fuel : Nat) (op : Operation) (h : op.done = true) :
    pollUntilDone poll fuel op = ([], PollResult.ok op) := by
  cases fuel <;> simp [pollUntilDone, h]

theorem pollUntilDone_ok_done (poll : Operation → Except String Operation)
    (fuel : Nat) (op op' : Operation)
    (h : (pollUntilDone poll fuel op).2 = PollResult.ok op') :
    op'.done = true := by
  induction fuel generalizing op with
  | zero =>
    by_cases hd : op.done <;> simp [pollUntilDone, hd] at h
    exact h ▸ hd
  | succ n ih =>
    by_cases hd : op.done
    · simp [pollUntilDone, hd] at h
      exact h ▸ hd
    · cases hp : poll op with
      | error e => simp [pollUntilDone, hd, hp] at h
      | ok op2 =>
        simp [pollUntilDone, hd, hp] at h
        exact ih op2 h

theorem pollUntilDone_events (poll : Operation → Except String Operation)
    (fuel : Nat) (op : Operation) :
    ∀ e ∈ (pollUntilDone poll fuel op).1,
      e = Event.wait 20000 ∨ e = Event.pollCall := by
  induction fuel generalizing op with
  | zero => by_cases hd : op.done <;> simp [pollUntilDone, hd]
  | succ n ih =>
    by_cases hd : op.done
    · simp [pollUntilDone, hd]
    · cases hp : poll op with
      | error e => simp [pollUntilDone, hd, hp]
      | ok op2 =>
        simp only [pollUntilDone, hd, Bool.false_eq_true, if_false, hp]
        intro e he
        simp only [List.mem_cons] at he
        rcases he with rfl | rfl | he
        · exact Or.inl rfl
        · exact Or.inr rfl
        · exact ih op2 e he

theorem progressOf_poll (poll : Operation → Except String Operation)
    (fuel : Nat) (op : Operation) :
    progressOf (pollUntilDone poll fuel op).1 = [] := by
  rw [progressOf, List.filterMap_eq_nil_iff]
  intro e he
  rcases pollUntilDone_events poll fuel op e he with rfl | rfl <;> rfl

theorem submitsOf_poll (poll : Operation → Except String Operation)
    (fuel : Nat) (op : Operation) :
    submitsOf (pollUntilDone poll fuel op).1 = [] := by
  rw [submitsOf, List.filterMap_eq_nil_iff]
  intro e he
  rcases pollUntilDone_events poll fuel op e he with rfl | rfl <;> rfl

theorem fetchesOf_poll (poll : Operation → Except String Operation)
    (fuel : Nat) (op : Operation) :
    fetchesOf (pollUntilDone poll fuel op).1 = [] := by
  rw [fetchesOf, List.filterMap_eq_nil_iff]
  intro e he
  rcases pollUntilDone_events poll fuel op e he with rfl | rfl <;> rfl

@[simp] theorem progressOf_append (a b : List Event) :
    progressOf (a ++ b) = progressOf a ++ progressOf b :=
  List.filterMap_append a b _

@[simp] theorem submitsOf_append (a b : List Event) :
    submitsOf (a ++ b) = submitsOf a ++ submitsOf b :=
  List.filterMap_append a b _

@[simp] theorem fetchesOf_append (a b : List Event) :
    fetchesOf (a ++ b) = fetchesOf a ++ fetchesOf b :=
  List.filterMap_append a b _

@[simp] theorem progressOf_nil : progressOf [] = [] := rfl

@[simp] theorem submitsOf_nil : submitsOf [] = [] := rfl

@[simp] theorem fetchesOf_nil : fetchesOf [] = [] := rfl

@[simp] theorem progressOf_cons_progress (m : String) (tr : List Event) :
    progressOf (Event.progress m :: tr) = m :: progressOf tr := rfl

@[simp] theorem progressOf_cons_submit (r : SubmitRequest) (tr : List Event) :
    progressOf (Event.submit r :: tr) = progressOf tr := rfl

@[simp] theorem progressOf_cons_wait (n : Nat) (tr : List Event) :
    progressOf (Event.wait n :: tr) = progressOf tr := rfl

@[simp] theorem progressOf_cons_pollCall (tr : List Event) :
    progressOf (Event.pollCall :: tr) = progressOf tr := rfl

@[simp] theorem progressOf_cons_fetchCall (u : String) (tr : List Event) :
    progressOf (Event.fetchCall u :: tr) = progressOf tr := rfl

@[simp] theorem submitsOf_cons_progress (m : String) (tr : List Event) :
    submitsOf (Event.progress m :: tr) = submitsOf tr := rfl

@[simp] theorem submitsOf_cons_submit (r : SubmitRequest) (tr : List Event) :
    submitsOf (Event.submit r :: tr) = r :: submitsOf tr := rfl

@[simp] theorem submitsOf_cons_wait (n : Nat) (tr : List Event) :
    submitsOf (Event.wait n :: tr) = submitsOf tr := rfl

@[simp] theorem submitsOf_cons_pollCall (tr : List Event) :
    submitsOf (Event.pollCall :: tr) = submitsOf tr := rfl

@[simp] theorem submitsOf_cons_fetchCall (u : String) (tr : List Event) :
    submitsOf (Event.fetchCall u :: tr) = submitsOf tr := rfl

@[simp] theorem fetchesOf_cons_progress (m : String) (tr : List Event) :
    fetchesOf (Event.progress m :: tr) = fetchesOf tr := rfl

@[simp] theorem fetchesOf_cons_submit (r : SubmitRequest) (tr : List Event) :
    fetchesOf (Event.submit r :: tr) = fetchesOf tr := rfl

@[simp] theorem fetchesOf_cons_wait (n : Nat) (tr : List Event) :
    fetchesOf (Event.wait n :: tr) = fetchesOf tr := rfl

@[simp] theorem fetchesOf_cons_pollCall (tr : List Event) :
    fetchesOf (Event.pollCall :: tr) = fetchesOf tr := rfl

@[simp] theorem fetchesOf_cons_fetchCall (u : String) (tr : List Event) :
    fetchesOf (Event.fetchCall u :: tr) = u :: fetchesOf tr := rfl

/-- The milestone chain of a run, by target length: the progress messages
the source can emit, in program order. -/
def milestones : Duration → List String
  | Duration.short => [warmingMsg, generatingMsg, downloadingMsg]
  | Duration.long =>
    [warmingMsg, generatingMsg, finalizingMsg, extendingMsg, downloadingExtMsg]

/-- `xs` is a leading segment of `ys`: `ys` starts with `xs`. -/
def isLeadSegment : List String → List String → Bool
  | [], _ => true
  | _ :: _, [] => false
  | x :: xs, y :: ys => x == y && isLeadSegment xs ys

/-! ### Facts about the catch boundary and the trace of a run -/

/-- With a credential present, the caller-visible trace of
`generateVideoFromImage` is exactly the trace of the `try` body: the
catch boundary changes outcomes, never events. -/
theorem generate_trace (env : Env) (fuel : Nat) (p : GenerateParams) (k : String)
    (hk : env.apiKey = some k) (hk' : k ≠ "") :
    (generateVideoFromImage env fuel p).1 = (tryBody env fuel p k).1 := by
  simp only [generateVideoFromImage, hk]
  rw [if_neg hk']
  rcases h : tryBody env fuel p k with ⟨tr, res⟩
  cases res with
  | returnedDownload r => cases r <;> rfl
  | thrown e => rfl
  | fuelOut => rfl

/-- An error thrown inside the `try` body reaches the caller classified,
exactly once. -/
theorem generate_of_thrown (env : Env) (fuel : Nat) (p : GenerateParams)
    (k : String) (tr : List Event) (e : String)
    (hk : env.apiKey = some k) (hk' : k ≠ "")
    (h : tryBody env fuel p k = (tr, TryResult.thrown e)) :
    generateVideoFromImage env fuel p = (tr, GenOutcome.error (classifyError e).message) := by
  simp only [generateVideoFromImage, hk]
  rw [if_neg hk', h]

/-- An error of the returned download promise reaches the caller
verbatim: it bypasses the `catch` block. -/
theorem generate_of_download_error (env : Env) (fuel : Nat) (p : GenerateParams)
    (k : String) (tr : List Event) (e : String)
    (hk : env.apiKey = some k) (hk' : k ≠ "")
    (h : tryBody env fuel p k = (tr, TryResult.returnedDownload (Except.error e))) :
    generateVideoFromImage env fuel p = (tr, GenOutcome.error e) := by
  simp only [generateVideoFromImage, hk]
  rw [if_neg hk', h]

/-- A successful download resolves the call with the artifact handle. -/
theorem generate_of_download_ok (env : Env) (fuel : Nat) (p : GenerateParams)
    (k : String) (tr : List Event) (url : String)
    (hk : env.apiKey = some k) (hk' : k ≠ "")
    (h : tryBody env fuel p k = (tr, TryResult.returnedDownload (Except.ok url))) :
    generateVideoFromImage env fuel p = (tr, GenOutcome.ok url) := by
  simp only [generateVideoFromImage, hk]
  rw [if_neg hk', h]

/-! ### C3: missing credential fails before any remote call -/

/-- C3: if the credential provider returns no credential (undefined, or
the falsy empty string), `generateVideoFromImage` fails immediately
with the missing-credential message and an empty event trace: no
submission, no poll call, no wait and no download is ever issued. -/
theorem C3_missing_credential (env : Env) (fuel : Nat) (p : GenerateParams)
    (h : env.apiKey = none ∨ env.apiKey = some "") :
    generateVideoFromImage env fuel p = ([], GenOutcome.error apiKeyMissingMessage) := by
  rcases h with h | h <;> simp [generateVideoFromImage, h]

/-- C3 witness: evaluated on an environment with no configured key. -/
theorem C3_missing_credential_witness :
    generateVideoFromImage envNoKey 0 pShortW
      = ([], GenOutcome.error apiKeyMissingMessage) :=
  C3_missing_credential envNoKey 0 pShortW (Or.inl rfl)

/-! ### C5: the error classifier's priority rules -/

/-- C5: the catch-block classifier applies case-sensitive substring rules
in priority order: a resource-exhaustion marker or the numeric 429 code
yields RateLimited with the canned wait message regardless of anything
else in the message; otherwise the entity-not-found marker yields
InvalidCredential with the canned re-select message; otherwise the raw
message passes through verbatim as Unknown, with a generic fallback
when the raw message is empty. -/
theorem C5_classifier_rules (msg : String) :
    ((strContains msg "RESOURCE_EXHAUSTED" = true ∨ strContains msg "429" = true) →
      classifyError msg = ⟨ErrorKind.RateLimited, rateLimitMessage⟩) ∧
    (strContains msg "RESOURCE_EXHAUSTED" = false → strContains msg "429" = false →
      strContains msg "Requested entity was not found" = true →
      classifyError msg = ⟨ErrorKind.InvalidCredential, invalidKeyMessage⟩) ∧
    (strContains msg "RESOURCE_EXHAUSTED" = false → strContains msg "429" = false →
      strContains msg "Requested entity was not found" = false → msg ≠ "" →
      classifyError msg = ⟨ErrorKind.Unknown, msg⟩) ∧
    classifyError "" = ⟨ErrorKind.Unknown, unknownErrorMessage⟩ := by
  refine ⟨?_, ?_, ?_, by decide⟩
  · intro h
    have hne : msg ≠ "" := by
      rintro rfl
      rcases h with h | h <;> exact absurd h (by decide)
    unfold classifyError
    rw [if_pos ⟨hne, h⟩]
  · intro h1 h2 h3
    have hne : msg ≠ "" := by rintro rfl; exact absurd h3 (by decide)
    unfold classifyError
    rw [if_neg (by rintro ⟨-, h | h⟩ <;> simp_all), if_pos ⟨hne, h3⟩]
  · intro h1 h2 h3 hne
    unfold classifyError
    rw [if_neg (by rintro ⟨-, h | h⟩ <;> simp_all),
      if_neg (by rintro ⟨-, h⟩; simp_all), if_neg hne]

/-! ### Exhaustive shape analysis of the try body's trace -/

/-- In every run of the `try` body, the emitted progress messages are a
leading segment of the milestone chain for the requested length. -/
theorem tryBody_progress_lead (env : Env) (fuel : Nat) (p : GenerateParams) (k : String) :
    isLeadSegment (progressOf (tryBody env fuel p k).1) (milestones p.duration) = true := by
  unfold tryBody
  cases hs1 : env.submit (initialReq p) with
  | error e =>
    cases p.duration <;> simp [isLeadSegment, milestones]
  | ok op0 =>
    rcases hp1 : pollUntilDone env.poll fuel op0 with ⟨ptr1, r1⟩
    have hptr1 : progressOf ptr1 = [] := by
      have h := progressOf_poll env.poll fuel op0
      rw [hp1] at h
      exact h
    cases r1 with
    | err e =>
      cases p.duration <;> simp [hp1, hptr1, isLeadSegment, milestones]
    | fuelOut =>
      cases p.duration <;> simp [hp1, hptr1, isLeadSegment, milestones]
    | ok op1 =>
      cases hd : p.duration with
      | short =>
        cases hu : videoUri op1 with
        | none => simp [hp1, hu, hptr1, isLeadSegment, milestones]
        | some link =>
          by_cases hl : link = "" <;>
            simp [hp1, hu, hl, hptr1, isLeadSegment, milestones, fetchAndCreateUrl]
      | long =>
        cases hv : opVideo op1 with
        | none => simp [hp1, hv, hptr1, isLeadSegment, milestones]
        | some v =>
          cases hs2 : env.submit (extensionReq p v) with
          | error e => simp [hp1, hv, hs2, hptr1, isLeadSegment, milestones]
          | ok xop0 =>
            rcases hp2 : pollUntilDone env.poll fuel xop0 with ⟨ptr2, r2⟩
            have hptr2 : progressOf ptr2 = [] := by
              have h := progressOf_poll env.poll fuel xop0
              rw [hp2] at h
              exact h
            cases r2 with
            | err e => simp [hp1, hv, hs2, hp2, hptr1, hptr2, isLeadSegment, milestones]
            | fuelOut => simp [hp1, hv, hs2, hp2, hptr1, hptr2, isLeadSegment, milestones]
            | ok xop1 =>
              cases hu2 : videoUri xop1 with
              | none =>
                simp [hp1, hv, hs2, hp2, hu2, hptr1, hptr2, isLeadSegment, milestones]
              | some link =>
                by_cases hl : link = "" <;>
                  simp [hp1, hv, hs2, hp2, hu2, hl, hptr1, hptr2, isLeadSegment,
                    milestones, fetchAndCreateUrl]

/-- In every run of the `try` body, the submissions issued are either the
single INITIAL request, or the INITIAL request followed by one
EXTENSION request continuing some video. -/
theorem tryBody_submits_shape (env : Env) (fuel : Nat) (p : GenerateParams) (k : String) :
    submitsOf (tryBody env fuel p k).1 = [initialReq p] ∨
    ∃ v, submitsOf (tryBody env fuel p k).1 = [initialReq p, extensionReq p v] := by
  unfold tryBody
  cases hs1 : env.submit (initialReq p) with
  | error e => left; simp
  | ok op0 =>
    rcases hp1 : pollUntilDone env.poll fuel op0 with ⟨ptr1, r1⟩
    have hptr1 : submitsOf ptr1 = [] := by
      have h := submitsOf_poll env.poll fuel op0
      rw [hp1] at h
      exact h
    cases r1 with
    | err e => left; simp [hp1, hptr1]
    | fuelOut => left; simp [hp1, hptr1]
    | ok op1 =>
      cases hd : p.duration with
      | short =>
        cases hu : videoUri op1 with
        | none => left; simp [hp1, hu, hptr1]
        | some link =>
          by_cases hl : link = "" <;>
            · left; simp [hp1, hu, hl, hptr1, fetchAndCreateUrl]
      | long =>
        cases hv : opVideo op1 with
        | none => left; simp [hp1, hv, hptr1]
        | some v =>
          cases hs2 : env.submit (extensionReq p v) with
          | error e => right; exact ⟨v, by simp [hp1, hv, hs2, hptr1]⟩
          | ok xop0 =>
            rcases hp2 : pollUntilDone env.poll fuel xop0 with ⟨ptr2, r2⟩
            have hptr2 : submitsOf ptr2 = [] := by
              have h := submitsOf_poll env.poll fuel xop0
              rw [hp2] at h
              exact h
            cases r2 with
            | err e => right; exact ⟨v, by simp [hp1, hv, hs2, hp2, hptr1, hptr2]⟩
            | fuelOut => right; exact ⟨v, by simp [hp1, hv, hs2, hp2, hptr1, hptr2]⟩
            | ok xop1 =>
              cases hu2 : videoUri xop1 with
              | none => right; exact ⟨v, by simp [hp1, hv, hs2, hp2, hu2, hptr1, hptr2]⟩
              | some link =>
                by_cases hl : link = "" <;>
                  · right
                    exact ⟨v, by simp [hp1, hv, hs2, hp2, hu2, hl, hptr1, hptr2,
                      fetchAndCreateUrl]⟩

/-- C5 witness: all four rules evaluated on concrete messages; the first
message carries both the rate-limit and the not-found marker, showing
the priority order. -/
theorem C5_classifier_rules_witness :
    classifyError "xx RESOURCE_EXHAUSTED Requested entity was not found"
        = ⟨ErrorKind.RateLimited, rateLimitMessage⟩ ∧
    classifyError "Requested entity was not found yy"
        = ⟨ErrorKind.InvalidCredential, invalidKeyMessage⟩ ∧
    classifyError "boom" = ⟨ErrorKind.Unknown, "boom"⟩ ∧
    classifyError "" = ⟨ErrorKind.Unknown, unknownErrorMessage⟩ :=
  ⟨(C5_classifier_rules _).1 (Or.inl (by decide)),
    (C5_classifier_rules _).2.1 (by decide) (by decide) (by decide),
    (C5_classifier_rules _).2.2.1 (by decide) (by decide) (by decide) (by decide),
    (C5_classifier_rules "").2.2.2⟩

/-! ### C8: progress events follow the milestone order -/

/-- C8: for every run — any environment, any fuel, any request — the
progress messages emitted are a leading segment of the fixed milestone
chain of the requested length, so "warming up" strictly precedes
"generating", which strictly precedes any "extending" or "downloading"
message, and no milestone is re-emitted or reordered. -/
theorem C8_progress_in_milestone_order (env : Env) (fuel : Nat) (p : GenerateParams) :
    isLeadSegment (progressOf (generateVideoFromImage env fuel p).1)
      (milestones p.duration) = true := by
  cases hk : env.apiKey with
  | none => simp [generateVideoFromImage, hk, isLeadSegment]
  | some k =>
    by_cases hk' : k = ""
    · subst hk'
      simp [generateVideoFromImage, hk, isLeadSegment]
    · rw [generate_trace env fuel p k hk hk']
      exact tryBody_progress_lead env fuel p k

/-! ### C10: the two stages use different models, same config shape -/

/-- C10: the INITIAL stage submits to `veo-3.1-fast-generate-preview` and
the EXTENSION stage to `veo-3.1-generate-preview`, two different model
identifiers, with an otherwise identical request configuration (one
output video, 720p, the caller's aspect ratio) and the same prompt; and
every submission any run ever issues is one of these two request
shapes. -/
theorem C10_stage_models (p : GenerateParams) (v : Video) :
    (initialReq p).model = "veo-3.1-fast-generate-preview" ∧
    (extensionReq p v).model = "veo-3.1-generate-preview" ∧
    (initialReq p).model ≠ (extensionReq p v).model ∧
    (initialReq p).config = (extensionReq p v).config ∧
    (initialReq p).config = ⟨1, "720p", p.aspect⟩ ∧
    (initialReq p).prompt = p.prompt ∧
    (extensionReq p v).prompt = p.prompt ∧
    ∀ env fuel tr r, generateVideoFromImage env fuel p = (tr, r) →
      ∀ req ∈ submitsOf tr, req = initialReq p ∨ ∃ w, req = extensionReq p w := by
  refine ⟨rfl, rfl, by simp [initialReq, extensionReq], rfl, rfl, rfl, rfl, ?_⟩
  intro env fuel tr r h req hreq
  cases hk : env.apiKey with
  | none =>
    have hgen : generateVideoFromImage env fuel p
        = ([], GenOutcome.error apiKeyMissingMessage) := by
      simp [generateVideoFromImage, hk]
    rw [hgen] at h
    injection h with h1 h2
    rw [← h1] at hreq
    simp at hreq
  | some k =>
    by_cases hk' : k = ""
    · subst hk'
      have hgen : generateVideoFromImage env fuel p
          = ([], GenOutcome.error apiKeyMissingMessage) := by
        simp [generateVideoFromImage, hk]
      rw [hgen] at h
      injection h with h1 h2
      rw [← h1] at hreq
      simp at hreq
    · have htr : tr = (tryBody env fuel p k).1 := by
        rw [← generate_trace env fuel p k hk hk', h]
      rw [htr] at hreq
      rcases tryBody_submits_shape env fuel p k with hs | ⟨w, hs⟩ <;> rw [hs] at hreq
      · simp only [List.mem_singleton] at hreq
        exact Or.inl hreq
      · simp only [List.mem_cons, List.mem_singleton, List.not_mem_nil, or_false] at hreq
        rcases hreq with rfl | rfl
        · exact Or.inl rfl
        · exact Or.inr ⟨w, rfl⟩

/-- C10 witness: the model identifiers and shared config evaluated on a
concrete request, and the shape of a concrete long run's first
submission. -/
theorem C10_stage_models_witness :
    (initialReq pLongW).model = "veo-3.1-fast-generate-preview" ∧
    (extensionReq pLongW ⟨some "http://v"⟩).model = "veo-3.1-generate-preview" ∧
    (initialReq pLongW).config = ⟨1, "720p", "16:9"⟩ ∧
    (initialReq pLongW = initialReq pLongW ∨
      ∃ w, initialReq pLongW = extensionReq pLongW w) :=
  ⟨(C10_stage_models pLongW ⟨some "http://v"⟩).1,
    (C10_stage_models pLongW ⟨some "http://v"⟩).2.1,
    (C10_stage_models pLongW ⟨some "http://v"⟩).2.2.2.2.1,
    (C10_stage_models pLongW ⟨some "http://v"⟩).2.2.2.2.2.2.2
      envHappy 3 (generateVideoFromImage envHappy 3 pLongW).1
      (generateVideoFromImage envHappy 3 pLongW).2 rfl
      (initialReq pLongW) (by decide)⟩

/-! ### C4: the polling loop -/

/-- C4: the polling loop returns only operations reporting done; an
already-done operation is returned unchanged with an empty trace (zero
waits, zero poll calls); a not-done snapshot causes exactly one fixed
20000 ms wait followed by exactly one poll call against the current
snapshot, whose successor replaces it; and every wait the loop ever
performs is exactly 20000 ms — no backoff, no varying interval. -/
theorem C4_polling_loop :
    (∀ poll fuel (op op' : Operation),
        (pollUntilDone poll fuel op).2 = PollResult.ok op' → op'.done = true) ∧
    (∀ poll fuel (op : Operation), op.done = true →
        pollUntilDone poll fuel op = ([], PollResult.ok op)) ∧
    (∀ poll fuel (op op' : Operation), op.done = false → poll op = Except.ok op' →
        pollUntilDone poll (fuel + 1) op
          = (Event.wait 20000 :: Event.pollCall :: (pollUntilDone poll fuel op').1,
              (pollUntilDone poll fuel op').2)) ∧
    (∀ poll fuel (op : Operation) (ms : Nat),
        Event.wait ms ∈ (pollUntilDone poll fuel op).1 → ms = 20000) := by
  refine ⟨pollUntilDone_ok_done, pollUntilDone_of_done, ?_, ?_⟩
  · intro poll fuel op op' hd hp
    simp [pollUntilDone, hd, hp]
  · intro poll fuel op ms hm
    rcases pollUntilDone_events poll fuel op _ hm with h | h
    · simpa using h
    · exact absurd h (by simp)

/-- C4 witness: the polling-loop properties evaluated on a concrete
oracle: an already-done operation with fuel 5, one not-done snapshot
polled to completion, and a concrete wait event. -/
theorem C4_polling_loop_witness :
    doneOpW.done = true ∧
    pollUntilDone pollW 5 doneOpW = ([], PollResult.ok doneOpW) ∧
    pollUntilDone pollW 1 notDoneOpW
      = (Event.wait 20000 :: Event.pollCall :: (pollUntilDone pollW 0 doneOpW).1,
          (pollUntilDone pollW 0 doneOpW).2) ∧
    (20000 : Nat) = 20000 :=
  ⟨C4_polling_loop.1 pollW 5 doneOpW doneOpW (by rfl),
    C4_polling_loop.2.1 pollW 5 doneOpW rfl,
    C4_polling_loop.2.2.1 pollW 0 notDoneOpW doneOpW rfl rfl,
    C4_polling_loop.2.2.2 pollW 1 notDoneOpW 20000 (by decide)⟩

/-! ### C1: long requests chain the extension off the initial result -/

/-- C1: in a long-duration run whose INITIAL stage submits and polls to
completion and yields a video, the run issues exactly the two
submissions INITIAL then EXTENSION; both poll cycles end on done
operations; and the EXTENSION submission's input is precisely the video
of the INITIAL operation's completed result, with the same prompt and
the same config shape — it is a video continuation, never the original
request image. -/
theorem C1_long_extension_chain (env : Env) (fuel : Nat) (p : GenerateParams)
    (k : String) (op0 op1 xop0 xop1 : Operation) (ptr1 ptr2 : List Event) (v : Video)
    (hd : p.duration = Duration.long)
    (hk : env.apiKey = some k) (hk' : k ≠ "")
    (hs1 : env.submit (initialReq p) = Except.ok op0)
    (hp1 : pollUntilDone env.poll fuel op0 = (ptr1, PollResult.ok op1))
    (hv : opVideo op1 = some v)
    (hs2 : env.submit (extensionReq p v) = Except.ok xop0)
    (hp2 : pollUntilDone env.poll fuel xop0 = (ptr2, PollResult.ok xop1)) :
    submitsOf (generateVideoFromImage env fuel p).1
        = [initialReq p, extensionReq p v] ∧
    op1.done = true ∧ xop1.done = true ∧
    (extensionReq p v).input = SubmitInput.video v ∧
    (extensionReq p v).prompt = p.prompt ∧
    (extensionReq p v).config = (initialReq p).config ∧
    ∀ bytes mt, (extensionReq p v).input ≠ SubmitInput.image bytes mt := by
  have hsub1 : submitsOf ptr1 = [] := by
    have h := submitsOf_poll env.poll fuel op0
    rw [hp1] at h
    exact h
  have hsub2 : submitsOf ptr2 = [] := by
    have h := submitsOf_poll env.poll fuel xop0
    rw [hp2] at h
    exact h
  refine ⟨?_, pollUntilDone_ok_done env.poll fuel op0 op1 (by rw [hp1]),
    pollUntilDone_ok_done env.poll fuel xop0 xop1 (by rw [hp2]), rfl, rfl, rfl,
    fun bytes mt h => SubmitInput.noConfusion h⟩
  rw [generate_trace env fuel p k hk hk']
  cases hu2 : videoUri xop1 with
  | none => simp [tryBody, hs1, hp1, hd, hv, hs2, hp2, hu2, hsub1, hsub2]
  | some link =>
    by_cases hl : link = ""
    · simp [tryBody, hs1, hp1, hd, hv, hs2, hp2, hu2, hl, hsub1, hsub2]
    · simp [tryBody, hs1, hp1, hd, hv, hs2, hp2, hu2, hl, hsub1, hsub2, fetchAndCreateUrl]

/-- C1 witness: the two-submission chain evaluated on a concrete happy
long-duration run. -/
theorem C1_long_extension_chain_witness :
    submitsOf (generateVideoFromImage envHappy 3 pLongW).1
      = [initialReq pLongW, extensionReq pLongW ⟨some "http://v"⟩] :=
  (C1_long_extension_chain envHappy 3 pLongW "key1" doneOpW doneOpW doneOpW doneOpW
    [] [] ⟨some "http://v"⟩ rfl rfl (by decide) rfl rfl rfl rfl rfl).1

/-! ### C2: short requests run a single cycle -/

/-- C2: in a short-duration run whose single INITIAL stage submits,
polls to completion, yields a link, and downloads successfully, the
pipeline performs exactly one submission (the INITIAL one — the
EXTENSION request shape is never issued, being distinct from the
INITIAL one), one poll cycle ending done, and returns the artifact
handle produced by downloading that operation's result link. -/
theorem C2_short_single_cycle (env : Env) (fuel : Nat) (p : GenerateParams)
    (k : String) (op0 op1 : Operation) (ptr1 : List Event) (link : String)
    (resp : FetchResponse)
    (hd : p.duration = Duration.short)
    (hk : env.apiKey = some k) (hk' : k ≠ "")
    (hs1 : env.submit (initialReq p) = Except.ok op0)
    (hp1 : pollUntilDone env.poll fuel op0 = (ptr1, PollResult.ok op1))
    (hu : videoUri op1 = some link) (hl : link ≠ "")
    (hdl : env.download (link ++ "&key=" ++ k) = Except.ok resp) (hro : resp.ok = true) :
    generateVideoFromImage env fuel p
        = ([Event.progress warmingMsg, Event.submit (initialReq p),
            Event.progress generatingMsg] ++ ptr1 ++
            [Event.progress downloadingMsg,
              Event.fetchCall (link ++ "&key=" ++ k)],
          GenOutcome.ok resp.blobUrl) ∧
    submitsOf (generateVideoFromImage env fuel p).1 = [initialReq p] ∧
    op1.done = true ∧
    ∀ w : Video, initialReq p ≠ extensionReq p w := by
  have hsub1 : submitsOf ptr1 = [] := by
    have h := submitsOf_poll env.poll fuel op0
    rw [hp1] at h
    exact h
  refine ⟨?_, ?_, pollUntilDone_ok_done env.poll fuel op0 op1 (by rw [hp1]), ?_⟩
  · simp [generateVideoFromImage, hk, hk', tryBody, hs1, hp1, hd, hu, hl,
      fetchAndCreateUrl, hdl, hro]
  · rw [generate_trace env fuel p k hk hk']
    simp [tryBody, hs1, hp1, hd, hu, hl, fetchAndCreateUrl, hsub1]
  · intro w h
    simp [initialReq, extensionReq] at h

/-- C2 witness: the single-cycle behavior evaluated on a concrete happy
short-duration run. -/
theorem C2_short_single_cycle_witness :
    generateVideoFromImage envHappy 3 pShortW
        = ([Event.progress warmingMsg, Event.submit (initialReq pShortW),
            Event.progress generatingMsg] ++ [] ++
            [Event.progress downloadingMsg,
              Event.fetchCall ("http://v" ++ "&key=" ++ "key1")],
          GenOutcome.ok "blob:1") ∧
    submitsOf (generateVideoFromImage envHappy 3 pShortW).1 = [initialReq pShortW] :=
  ⟨(C2_short_single_cycle envHappy 3 pShortW "key1" doneOpW doneOpW [] "http://v"
      ⟨true, "OK", "blob:1"⟩ rfl rfl (by decide) rfl rfl rfl (by decide) rfl rfl).1,
    (C2_short_single_cycle envHappy 3 pShortW "key1" doneOpW doneOpW [] "http://v"
      ⟨true, "OK", "blob:1"⟩ rfl rfl (by decide) rfl rfl rfl (by decide) rfl rfl).2.1⟩

/-! ### C7: a done operation without a result reference -/

/-- C7: whenever a stage's operation completes with no result reference,
the pipeline fails with the missing-result error of that stage —
short runs with the no-download-link message, long runs with the
no-initial-video message when INITIAL's video is absent, and with the
extension-failure message when EXTENSION's link is absent — and in
every such case no artifact download is ever attempted. -/
theorem C7_missing_result (env : Env) (fuel : Nat) (p : GenerateParams)
    (k : String) (op0 op1 : Operation) (ptr1 : List Event)
    (hk : env.apiKey = some k) (hk' : k ≠ "")
    (hs1 : env.submit (initialReq p) = Except.ok op0)
    (hp1 : pollUntilDone env.poll fuel op0 = (ptr1, PollResult.ok op1)) :
    (p.duration = Duration.short → videoUri op1 = none →
      (generateVideoFromImage env fuel p).2
          = GenOutcome.error "Video generation failed: No download link was returned." ∧
      fetchesOf (generateVideoFromImage env fuel p).1 = []) ∧
    (p.duration = Duration.long → opVideo op1 = none →
      (generateVideoFromImage env fuel p).2
          = GenOutcome.error "Failed to get initial video for extension." ∧
      fetchesOf (generateVideoFromImage env fuel p).1 = []) ∧
    (∀ (v : Video) (xop0 xop1 : Operation) (ptr2 : List Event),
      p.duration = Duration.long → opVideo op1 = some v →
      env.submit (extensionReq p v) = Except.ok xop0 →
      pollUntilDone env.poll fuel xop0 = (ptr2, PollResult.ok xop1) →
      videoUri xop1 = none →
      (generateVideoFromImage env fuel p).2
          = GenOutcome.error "Video extension failed: No download link was returned." ∧
      fetchesOf (generateVideoFromImage env fuel p).1 = []) := by
  have hf1 : fetchesOf ptr1 = [] := by
    have h := fetchesOf_poll env.poll fuel op0
    rw [hp1] at h
    exact h
  refine ⟨?_, ?_, ?_⟩
  · intro hdur hu
    have hbody : tryBody env fuel p k
        = ([Event.progress warmingMsg, Event.submit (initialReq p),
            Event.progress generatingMsg] ++ ptr1,
          TryResult.thrown "Video generation failed: No download link was returned.") := by
      simp [tryBody, hs1, hp1, hdur, hu]
    have hmsg : (classifyError "Video generation failed: No download link was returned.").message
        = "Video generation failed: No download link was returned." := by decide
    rw [generate_of_thrown env fuel p k _ _ hk hk' hbody, hmsg]
    exact ⟨rfl, by simp [hf1]⟩
  · intro hdur hv
    have hbody : tryBody env fuel p k
        = ([Event.progress warmingMsg, Event.submit (initialReq p),
            Event.progress generatingMsg] ++ ptr1 ++
            [Event.progress finalizingMsg, Event.wait 3000, Event.progress extendingMsg],
          TryResult.thrown "Failed to get initial video for extension.") := by
      simp [tryBody, hs1, hp1, hdur, hv]
    have hmsg : (classifyError "Failed to get initial video for extension.").message
        = "Failed to get initial video for extension." := by decide
    rw [generate_of_thrown env fuel p k _ _ hk hk' hbody, hmsg]
    exact ⟨rfl, by simp [hf1]⟩
  · intro v xop0 xop1 ptr2 hdur hv hs2 hp2 hu2
    have hf2 : fetchesOf ptr2 = [] := by
      have h := fetchesOf_poll env.poll fuel xop0
      rw [hp2] at h
      exact h
    have hbody : tryBody env fuel p k
        = ([Event.progress warmingMsg, Event.submit (initialReq p),
            Event.progress generatingMsg] ++ ptr1 ++
            [Event.progress finalizingMsg, Event.wait 3000, Event.progress extendingMsg,
              Event.submit (extensionReq p v)] ++ ptr2,
          TryResult.thrown "Video extension failed: No download link was returned.") := by
      simp [tryBody, hs1, hp1, hdur, hv, hs2, hp2, hu2]
    have hmsg : (classifyError "Video extension failed: No download link was returned.").message
        = "Video extension failed: No download link was returned." := by decide
    rw [generate_of_thrown env fuel p k _ _ hk hk' hbody, hmsg]
    exact ⟨rfl, by simp [hf1, hf2]⟩

/-- C7 witness: all three missing-result cases evaluated on concrete
environments (an empty short result, an empty long INITIAL result, and
an EXTENSION result whose video has no uri); no download call appears
in any of the three traces. -/
theorem C7_missing_result_witness :
    (generateVideoFromImage envNoResult 3 pShortW).2
        = GenOutcome.error "Video generation failed: No download link was returned." ∧
    fetchesOf (generateVideoFromImage envNoResult 3 pShortW).1 = [] ∧
    (generateVideoFromImage envNoResult 3 pLongW).2
        = GenOutcome.error "Failed to get initial video for extension." ∧
    fetchesOf (generateVideoFromImage envNoResult 3 pLongW).1 = [] ∧
    (generateVideoFromImage envExtNoUri 3 pLongW).2
        = GenOutcome.error "Video extension failed: No download link was returned." ∧
    fetchesOf (generateVideoFromImage envExtNoUri 3 pLongW).1 = [] := by
  refine ⟨?_, ?_, ?_, ?_, ?_, ?_⟩
  · exact ((C7_missing_result envNoResult 3 pShortW "key1" opNoResW opNoResW []
      rfl (by decide) rfl rfl).1 rfl rfl).1
  · exact ((C7_missing_result envNoResult 3 pShortW "key1" opNoResW opNoResW []
      rfl (by decide) rfl rfl).1 rfl rfl).2
  · exact ((C7_missing_result envNoResult 3 pLongW "key1" opNoResW opNoResW []
      rfl (by decide) rfl rfl).2.1 rfl rfl).1
  · exact ((C7_missing_result envNoResult 3 pLongW "key1" opNoResW opNoResW []
      rfl (by decide) rfl rfl).2.1 rfl rfl).2
  · exact ((C7_missing_result envExtNoUri 3 pLongW "key1" doneOpW doneOpW []
      rfl (by decide) rfl rfl).2.2 ⟨some "http://v"⟩ opNoUriW opNoUriW []
      rfl rfl rfl rfl rfl).1
  · exact ((C7_missing_result envExtNoUri 3 pLongW "key1" doneOpW doneOpW []
      rfl (by decide) rfl rfl).2.2 ⟨some "http://v"⟩ opNoUriW opNoUriW []
      rfl rfl rfl rfl rfl).2

/-! ### C6: classification happens at the boundary — except downloads -/

/-- C6 counterexample: a run whose download responds unsuccessfully with
status text `429`.  The error reaching the caller is the raw
`Failed to download video: 429`; had that failure passed through the
boundary classifier as the claim states, the caller would have received
the canned rate-limit message instead (the classifier maps this very
message to it).  Download failures therefore do not pass through the
classifier. -/
theorem C6_download_error_unclassified :
    (generateVideoFromImage envDl429 0 pShortW).2
        = GenOutcome.error "Failed to download video: 429" ∧
    (classifyError "Failed to download video: 429").message = rateLimitMessage ∧
    rateLimitMessage ≠ "Failed to download video: 429" := by
  refine ⟨by decide, by decide, by decide⟩

/-- C6 (amended): errors raised inside the `try` block — stage submission
failures, polling failures, missing-result errors — pass exactly once
through the classifier at the boundary of the generate call; the
download promise, however, is returned from the `try` block without
being awaited, so a download failure bypasses the `catch` and reaches
the caller unclassified — for an unsuccessful response, as the raw
message `Failed to download video: ` followed by the transport's status
text. -/
theorem C6_boundary_classification (env : Env) (fuel : Nat) (p : GenerateParams)
    (k : String) (hk : env.apiKey = some k) (hk' : k ≠ "") :
    (∀ tr e, tryBody env fuel p k = (tr, TryResult.thrown e) →
      generateVideoFromImage env fuel p
        = (tr, GenOutcome.error (classifyError e).message)) ∧
    (∀ tr e, tryBody env fuel p k = (tr, TryResult.returnedDownload (Except.error e)) →
      generateVideoFromImage env fuel p = (tr, GenOutcome.error e)) ∧
    (∀ link resp, env.download (link ++ "&key=" ++ k) = Except.ok resp → resp.ok = false →
      (fetchAndCreateUrl env link k).2
        = Except.error ("Failed to download video: " ++ resp.statusText)) :=
  ⟨fun tr e h => generate_of_thrown env fuel p k tr e hk hk' h,
    fun tr e h => generate_of_download_error env fuel p k tr e hk hk' h,
    fun link resp hdl hro => by simp [fetchAndCreateUrl, hdl, hro]⟩

/-- C6 witness: the boundary behavior evaluated on three concrete
environments: a classified submission failure, an unclassified download
rejection, and an unsuccessful download response's raw message. -/
theorem C6_boundary_classification_witness :
    generateVideoFromImage envSubmitFail 0 pShortW
        = ([Event.progress warmingMsg, Event.submit (initialReq pShortW)],
            GenOutcome.error rateLimitMessage) ∧
    generateVideoFromImage envDlReject 0 pShortW
        = ([Event.progress warmingMsg, Event.submit (initialReq pShortW),
            Event.progress generatingMsg, Event.progress downloadingMsg,
            Event.fetchCall "http://v&key=key1"],
            GenOutcome.error "network down") ∧
    (fetchAndCreateUrl envDl429 "http://v" "key1").2
        = Except.error ("Failed to download video: " ++ "429") :=
  ⟨(C6_boundary_classification envSubmitFail 0 pShortW "key1" rfl (by decide)).1
      [Event.progress warmingMsg, Event.submit (initialReq pShortW)]
      "RESOURCE_EXHAUSTED" rfl,
    (C6_boundary_classification envDlReject 0 pShortW "key1" rfl (by decide)).2.1
      [Event.progress warmingMsg, Event.submit (initialReq pShortW),
        Event.progress generatingMsg, Event.progress downloadingMsg,
        Event.fetchCall "http://v&key=key1"]
      "network down" rfl,
    (C6_boundary_classification envDl429 0 pShortW "key1" rfl (by decide)).2.2
      "http://v" ⟨false, "429", ""⟩ rfl rfl⟩

/-! ### C9: when the "extending" event is emitted -/

/-- C9 counterexample: a long run whose INITIAL operation completes with
no result reference fails with the missing-result error, yet its trace
DOES contain the "extending" progress event — refuting the claim that
such a run emits no "extending" event (and hence that the event comes
only after extraction, validation and submission). -/
theorem C9_extending_before_validation :
    (generateVideoFromImage envNoResult 0 pLongW).2
        = GenOutcome.error "Failed to get initial video for extension." ∧
    Event.progress extendingMsg ∈ (generateVideoFromImage envNoResult 0 pLongW).1 := by
  refine ⟨by decide, by decide⟩

/-- C9 (amended): in every long run whose INITIAL stage submits and polls
to completion, the "extending" progress event is emitted immediately
after the settle delay — BEFORE the INITIAL artifact reference is
extracted or validated and before the EXTENSION job is submitted
(everything of the extension stage lies in the trace's remainder
`rest`); consequently a run that fails with the missing-initial-video
error still emits the "extending" event, with nothing after it. -/
theorem C9_extending_emitted_early (env : Env) (fuel : Nat) (p : GenerateParams)
    (k : String) (op0 op1 : Operation) (ptr1 : List Event)
    (hd : p.duration = Duration.long)
    (hk : env.apiKey = some k) (hk' : k ≠ "")
    (hs1 : env.submit (initialReq p) = Except.ok op0)
    (hp1 : pollUntilDone env.poll fuel op0 = (ptr1, PollResult.ok op1)) :
    ∃ rest, (generateVideoFromImage env fuel p).1
        = [Event.progress warmingMsg, Event.submit (initialReq p),
            Event.progress generatingMsg] ++ ptr1 ++
          [Event.progress finalizingMsg, Event.wait 3000,
            Event.progress extendingMsg] ++ rest ∧
      (opVideo op1 = none → rest = [] ∧
        (generateVideoFromImage env fuel p).2
          = GenOutcome.error "Failed to get initial video for extension.") := by
  cases hv : opVideo op1 with
  | none =>
    have hbody : tryBody env fuel p k
        = ([Event.progress warmingMsg, Event.submit (initialReq p),
            Event.progress generatingMsg] ++ ptr1 ++
            [Event.progress finalizingMsg, Event.wait 3000, Event.progress extendingMsg],
          TryResult.thrown "Failed to get initial video for extension.") := by
      simp [tryBody, hs1, hp1, hd, hv]
    have hmsg : (classifyError "Failed to get initial video for extension.").message
        = "Failed to get initial video for extension." := by decide
    rw [generate_of_thrown env fuel p k _ _ hk hk' hbody, hmsg]
    exact ⟨[], by simp, fun _ => ⟨rfl, rfl⟩⟩
  | some v =>
    cases hs2 : env.submit (extensionReq p v) with
    | error e =>
      refine ⟨[Event.submit (extensionReq p v)], ?_, fun hn => by simp [hv] at hn⟩
      rw [generate_trace env fuel p k hk hk']
      simp [tryBody, hs1, hp1, hd, hv, hs2]
    | ok xop0 =>
      rcases hp2 : pollUntilDone env.poll fuel xop0 with ⟨ptr2, r2⟩
      cases r2 with
      | err e =>
        refine ⟨Event.submit (extensionReq p v) :: ptr2, ?_, fun hn => by simp [hv] at hn⟩
        rw [generate_trace env fuel p k hk hk']
        simp [tryBody, hs1, hp1, hd, hv, hs2, hp2]
      | fuelOut =>
        refine ⟨Event.submit (extensionReq p v) :: ptr2, ?_, fun hn => by simp [hv] at hn⟩
        rw [generate_trace env fuel p k hk hk']
        simp [tryBody, hs1, hp1, hd, hv, hs2, hp2]
      | ok xop1 =>
        cases hu2 : videoUri xop1 with
        | none =>
          refine ⟨Event.submit (extensionReq p v) :: ptr2, ?_, fun hn => by simp [hv] at hn⟩
          rw [generate_trace env fuel p k hk hk']
          simp [tryBody, hs1, hp1, hd, hv, hs2, hp2, hu2]
        | some link =>
          by_cases hl : link = ""
          · refine ⟨Event.submit (extensionReq p v) :: ptr2, ?_,
              fun hn => by simp [hv] at hn⟩
            rw [generate_trace env fuel p k hk hk']
            simp [tryBody, hs1, hp1, hd, hv, hs2, hp2, hu2, hl]
          · refine ⟨Event.submit (extensionReq p v) :: ptr2 ++
              [Event.progress downloadingExtMsg,
                Event.fetchCall (link ++ "&key=" ++ k)], ?_,
              fun hn => by simp [hv] at hn⟩
            rw [generate_trace env fuel p k hk hk']
            simp [tryBody, hs1, hp1, hd, hv, hs2, hp2, hu2, hl, fetchAndCreateUrl]

/-- C9 witness: the amended ordering evaluated on a concrete long run
whose INITIAL result is absent: the "extending" event closes the trace
and the run fails with the missing-initial-video error. -/
theorem C9_extending_emitted_early_witness :
    ∃ rest, (generateVideoFromImage envNoResult 3 pLongW).1
        = [Event.progress warmingMsg, Event.submit (initialReq pLongW),
            Event.progress generatingMsg] ++ [] ++
          [Event.progress finalizingMsg, Event.wait 3000,
            Event.progress extendingMsg] ++ rest ∧
      (opVideo opNoResW = none → rest = [] ∧
        (generateVideoFromImage envNoResult 3 pLongW).2
          = GenOutcome.error "Failed to get initial video for extension.") :=
  C9_extending_emitted_early envNoResult 3 pLongW "key1" opNoResW opNoResW []
    rfl rfl (by decide) rfl rfl

end VideoCreator
